import Mathlib

/-!
Verification of `emo_classifier/model.py`: the abstract `Model` contract
(save/load orchestration over the artifact directory, per-label
thresholded prediction, and the shared emotion-label list).

The embedding models:
- the artifact directory (`ARTIFACT_DIR`) as an association list of named
  entries (files with byte contents, or subdirectories);
- a concrete `Model` subclass ("variant") as a record of the abstract
  operations of the contract, with state type `St` for the instance's
  learned parameters;
- `Model.load` / `Model.save` / `Model._initialize_artifact_dir` as pure
  functions over that directory state, with printed confirmations returned
  as strings;
- bytes as `List Nat`, probabilities as `ℚ`.
-/

namespace EmoClassifier

/-- One entry of a directory: a regular file with its byte contents, or a
subdirectory (whose own entries only matter in that `shutil.rmtree`
removes the whole entry). -/
inductive Entry where
  | file (content : List Nat)
  | dir (sub : List (String × List Nat))
deriving DecidableEq

/-- A directory listing: named entries, in order. -/
abbrev Dir := List (String × Entry)

/-- The class attribute `Model.artifact_file_name = "model.model"`
(model.py line 24), inherited by every subclass that does not override it. -/
def default_artifact_file_name : String := "model.model"

/-- Modelled from the spec: `emo_classifier.metrics.Thresholds` is outside
the given sources; the spec describes it as a mapping from each emotion
label to a decision threshold in [0,1]. -/
abbrev Thresholds : Type := String → ℚ

/-- Modelled from the spec: `emo_classifier.api.Comment` is outside the
given sources; an opaque single input to `predict`. -/
structure Comment where
  text : String
deriving DecidableEq

/-- Modelled from the spec: `emo_classifier.api.Prediction` is outside the
given sources; it encodes which labels are asserted. -/
structure Prediction where
  asserted : List String
deriving DecidableEq

/-- A concrete `Model` subclass: the class-level data (its name, its
`artifact_file_name`) together with implementations of every abstract
operation of the contract.  `St` is the type of the instance state.
`load_artifact_file` returns `Except`: the error case is the
DeserializationError of the spec.  `save_artifact_file` returns the bytes
it writes at the given path, or a filesystem/serialization error. -/
structure Variant (St : Type) where
  name : String
  artifact_file_name : String := default_artifact_file_name
  load_artifact_file : List Nat → Except String St
  save_artifact_file : St → Except String (List Nat)
  thresholds : St → Thresholds
  set_thresholds : St → Thresholds → St
  predict : St → Comment → Prediction
  predict_proba : St → List String → List (List ℚ)

/-- Errors that `Model.load` can surface: the artifact resource is absent
(`FileNotFoundError` from `resources.open_binary`, the spec's
ArtifactNotFoundError), or `load_artifact_file` failed to deserialize. -/
inductive LoadError where
  | artifactNotFound
  | deserialization (msg : String)
deriving DecidableEq

/-- Embeds `resources.open_binary("emo_classifier.artifact", name)`: look up the
file named `name` in the artifact directory and return its bytes;
`none` models the `FileNotFoundError` raised when it is absent. -/
def openBinary (d : Dir) (name : String) : Option (List Nat) :=
  match d.find? (fun x => x.1 == name) with
  | some (_, .file content) => some content
  | _ => none

/-- Embeds `Model.load` (model.py lines 38-43): open the artifact resource named
by the class's `artifact_file_name`, delegate to `load_artifact_file`, and
return the result together with the printed confirmation line.  Errors
from the resource lookup and from `load_artifact_file` propagate. -/
def load {St : Type} (v : Variant St) (artifactDir : Dir) :
    Except LoadError (St × String) :=
  match openBinary artifactDir v.artifact_file_name with
  | none => .error .artifactNotFound
  | some bytes =>
    match v.load_artifact_file bytes with
    | .error msg => .error (.deserialization msg)
    | .ok model => .ok (model, "LOADED: " ++ v.name ++ " instance")

/-- The body of the `for file in ARTIFACT_DIR.iterdir()` loop: delete one
entry.  `shutil.rmtree` for a subdirectory and `Path.unlink` for a file
both remove the named entry from the listing. -/
def deleteEntry (d : Dir) (name : String) (e : Entry) : Dir :=
  match e with
  | .dir _ => d.filter (fun x => x.1 != name)
  | .file _ => d.filter (fun x => x.1 != name)

/-- Embeds `Path.touch`: create an empty file if no entry of that name exists;
an existing entry is left as it is. -/
def touch (d : Dir) (name : String) : Dir :=
  if d.any (fun x => x.1 == name) then d else d ++ [(name, .file [])]

/-- Embeds `Model._initialize_artifact_dir` (model.py lines 45-57): if
`ARTIFACT_DIR` exists, iterate over its entries and delete each one
(rmtree for directories, unlink for files); otherwise create it.  Then
touch the `__init__.py` marker file.  `none` models a non-existent
directory. -/
def init_artifact_dir (fs : Option Dir) : Dir :=
  let cleared : Dir :=
    match fs with
    | some d => d.foldl (fun acc x => deleteEntry acc x.1 x.2) d
    | none => []
  touch cleared "__init__.py"

/-- Writing a file at a path: any existing entry of that name is replaced
by a regular file with the given contents. -/
def writeFile (d : Dir) (name : String) (content : List Nat) : Dir :=
  d.filter (fun x => x.1 != name) ++ [(name, .file content)]

/-- Embeds `Model.save` (model.py lines 68-72): initialize the artifact
directory, compute `ARTIFACT_DIR / artifact_file_name`, delegate to
`save_artifact_file`, and print the confirmation.  Returns the resulting
directory state together with either the printed confirmation or the
propagated error; on error the directory retains the state
`save_artifact_file` left it in (here: initialized, nothing written). -/
def save {St : Type} (v : Variant St) (m : St) (fs : Option Dir) :
    Dir × Except String String :=
  let d := init_artifact_dir fs
  match v.save_artifact_file m with
  | .ok content =>
      (writeFile d v.artifact_file_name content,
       .ok ("SAVED: " ++ v.artifact_file_name))
  | .error e => (d, .error e)

/-! ### Helper lemmas -/

theorem foldl_filter {α β : Type} (p : α → β → Bool) (l : List α) (init : List β) :
    l.foldl (fun acc x => acc.filter (p x)) init
      = init.filter (fun y => l.all (fun x => p x y)) := by
  induction l generalizing init with
  | nil => simp
  | cons a t ih =>
      simp only [List.foldl_cons, ih, List.filter_filter, List.all_cons]
      congr 1
      funext y
      exact Bool.and_comm _ _

theorem deleteEntry_eq_filter (d : Dir) (name : String) (e : Entry) :
    deleteEntry d name e = d.filter (fun x => x.1 != name) := by
  cases e <;> rfl

/-- The `iterdir` loop of `_initialize_artifact_dir` empties the
directory: every entry of the snapshot is deleted from the listing. -/
theorem clear_loop_eq_nil (d : Dir) :
    d.foldl (fun acc x => deleteEntry acc x.1 x.2) d = [] := by
  have h : (fun (acc : Dir) (x : String × Entry) => deleteEntry acc x.1 x.2)
      = fun (acc : Dir) (x : String × Entry) =>
          acc.filter (fun y => y.1 != x.1) := by
    funext acc x
    exact deleteEntry_eq_filter acc x.1 x.2
  rw [h, foldl_filter]
  rw [List.filter_eq_nil_iff]
  intro y hy hall
  rw [List.all_eq_true] at hall
  have := hall y hy
  simp at this

/-- After `_initialize_artifact_dir`, whatever the prior state of
`ARTIFACT_DIR`, the directory holds exactly the empty marker file. -/
theorem init_artifact_dir_eq (fs : Option Dir) :
    init_artifact_dir fs = [("__init__.py", .file [])] := by
  cases fs with
  | none => rfl
  | some d =>
      show touch (d.foldl (fun acc x => deleteEntry acc x.1 x.2) d) "__init__.py"
        = [("__init__.py", .file [])]
      rw [clear_loop_eq_nil d]
      rfl

theorem find?_append_last {name : String} {c : Entry} (l : Dir)
    (h : ∀ x ∈ l, (x.1 == name) = false) :
    (l ++ [(name, c)]).find? (fun x => x.1 == name) = some (name, c) := by
  induction l with
  | nil => simp
  | cons a t ih =>
      have ha := h a (List.mem_cons_self a t)
      simp only [List.cons_append, List.find?_cons, ha]
      exact ih (fun x hx => h x (List.mem_cons_of_mem a hx))

theorem openBinary_writeFile (d : Dir) (name : String) (content : List Nat) :
    openBinary (writeFile d name content) name = some content := by
  unfold openBinary writeFile
  rw [find?_append_last]
  intro x hx
  have := List.of_mem_filter hx
  simpa using this

/-- On a successful `save_artifact_file`, the directory `save` leaves
behind is the initialized directory plus the written artifact file. -/
theorem save_dir_of_ok {St : Type} (v : Variant St) (m : St) (fs : Option Dir)
    (bytes : List Nat) (hsave : v.save_artifact_file m = .ok bytes) :
    (save v m fs).1
      = writeFile [("__init__.py", Entry.file [])] v.artifact_file_name bytes := by
  unfold save
  rw [hsave, init_artifact_dir_eq]

/-- A small concrete variant used to exercise the contract on concrete
inputs: the state is a natural number, serialized in unary. -/
def toyVariant : Variant Nat where
  name := "ToyModel"
  load_artifact_file := fun b =>
    if b.all (fun x => x == 1) then .ok b.length
    else .error "DeserializationError: bad format"
  save_artifact_file := fun s => .ok (List.replicate s 1)
  thresholds := fun _ _ => 1 / 2
  set_thresholds := fun s _ => s
  predict := fun _ _ => ⟨[]⟩
  predict_proba := fun s X => X.map (fun _ => [(s : ℚ) / (s + 1)])

/-- Exact directory contents after a successful `save`, when the class's
artifact file name differs from the marker file's. -/
theorem save_contents_of_ok {St : Type} (v : Variant St) (m : St)
    (fs : Option Dir) (bytes : List Nat)
    (hsave : v.save_artifact_file m = .ok bytes)
    (hname : v.artifact_file_name ≠ "__init__.py") :
    (save v m fs).1
      = [("__init__.py", Entry.file []),
         (v.artifact_file_name, Entry.file bytes)] := by
  rw [save_dir_of_ok v m fs bytes hsave]
  unfold writeFile
  have h : ("__init__.py" != v.artifact_file_name) = true := by
    simp [Ne.symm hname]
  simp [h]

/-! ### Claim theorems -/

/-- C2: for every prior state of the artifact directory (including one
with unrelated files and subdirectories, and including a non-existent
directory, which is created), a successful `save` leaves the directory
containing exactly the marker file and the newly written artifact file;
all prior entries are gone. -/
theorem save_destructive {St : Type} (v : Variant St) (m : St) (fs : Option Dir)
    (bytes : List Nat) (hsave : v.save_artifact_file m = .ok bytes)
    (hname : v.artifact_file_name ≠ "__init__.py") :
    (save v m fs).1
      = [("__init__.py", Entry.file []),
         (v.artifact_file_name, Entry.file bytes)] :=
  save_contents_of_ok v m fs bytes hsave hname

theorem save_destructive_witness :
    (save toyVariant 2
        (some [("junk.txt", Entry.file [7]),
               ("old_dir", Entry.dir [("inner", [1, 2])]),
               ("model.model", Entry.file [9, 9])])).1
      = [("__init__.py", Entry.file []), ("model.model", Entry.file [1, 1])] :=
  save_destructive toyVariant 2
    (some [("junk.txt", Entry.file [7]),
           ("old_dir", Entry.dir [("inner", [1, 2])]),
           ("model.model", Entry.file [9, 9])])
    [1, 1] rfl (by decide)

/-- C10: `save` is not atomic: the directory is cleared before
`save_artifact_file` runs, so when `save_artifact_file` fails the prior
contents are already destroyed and only the marker file remains; the
error propagates. -/
theorem save_not_atomic {St : Type} (v : Variant St) (m : St) (fs : Option Dir)
    (e : String) (herr : v.save_artifact_file m = .error e) :
    (save v m fs).1 = [("__init__.py", Entry.file [])]
      ∧ (save v m fs).2 = .error e := by
  unfold save
  rw [herr, init_artifact_dir_eq]
  exact ⟨rfl, rfl⟩

/-- A variant whose `save_artifact_file` always fails, to exercise the
failure path of `save` on a concrete input. -/
def failingSaveVariant : Variant Nat :=
  { toyVariant with save_artifact_file := fun _ => .error "disk full" }

theorem save_not_atomic_witness :
    (save failingSaveVariant 2 (some [("junk.txt", Entry.file [7])])).1
        = [("__init__.py", Entry.file [])]
      ∧ (save failingSaveVariant 2 (some [("junk.txt", Entry.file [7])])).2
        = .error "disk full" :=
  save_not_atomic failingSaveVariant 2 (some [("junk.txt", Entry.file [7])])
    "disk full" rfl

/-- C3: when no artifact file exists at the class's fixed artifact
location, `load` fails with ArtifactNotFoundError; it never returns a
model. -/
theorem load_missing_artifact {St : Type} (v : Variant St) (d : Dir)
    (h : openBinary d v.artifact_file_name = none) :
    load v d = .error .artifactNotFound := by
  unfold load
  rw [h]

theorem load_missing_artifact_witness :
    load toyVariant [] = .error .artifactNotFound :=
  load_missing_artifact toyVariant [] rfl

/-- C4: when the artifact resource named by the class's fixed file name
exists and `load_artifact_file` reconstructs an instance from it, `load`
returns exactly that instance, together with the printed human-readable
confirmation as its only other effect. -/
theorem load_success {St : Type} (v : Variant St) (d : Dir)
    (bytes : List Nat) (m : St)
    (hres : openBinary d v.artifact_file_name = some bytes)
    (hok : v.load_artifact_file bytes = .ok m) :
    load v d = .ok (m, "LOADED: " ++ v.name ++ " instance") := by
  unfold load
  rw [hres]
  dsimp only
  rw [hok]

theorem load_success_witness :
    load toyVariant [("model.model", Entry.file [1, 1, 1])]
      = .ok (3, "LOADED: ToyModel instance") :=
  load_success toyVariant [("model.model", Entry.file [1, 1, 1])] [1, 1, 1] 3
    rfl rfl

/-- C5: when `load_artifact_file` fails with a DeserializationError, the
class-level `load` does not catch it: the error propagates unchanged to
`load`'s caller. -/
theorem load_deserialization_propagates {St : Type} (v : Variant St) (d : Dir)
    (bytes : List Nat) (msg : String)
    (hres : openBinary d v.artifact_file_name = some bytes)
    (herr : v.load_artifact_file bytes = .error msg) :
    load v d = .error (.deserialization msg) := by
  unfold load
  rw [hres]
  dsimp only
  rw [herr]

theorem load_deserialization_propagates_witness :
    load toyVariant [("model.model", Entry.file [7])]
      = .error (.deserialization "DeserializationError: bad format") :=
  load_deserialization_propagates toyVariant
    [("model.model", Entry.file [7])] [7] "DeserializationError: bad format"
    rfl rfl

/-- C1: for a variant whose `load_artifact_file` inverts its
`save_artifact_file`, saving an instance and then loading yields a model
whose `predict_proba` agrees with the original's on every input batch. -/
theorem save_load_round_trip {St : Type} (v : Variant St) (m : St)
    (fs : Option Dir) (bytes : List Nat)
    (hsave : v.save_artifact_file m = .ok bytes)
    (hinv : v.load_artifact_file bytes = .ok m) :
    ∃ r, load v (save v m fs).1 = .ok r
      ∧ ∀ X, v.predict_proba r.1 X = v.predict_proba m X := by
  refine ⟨(m, "LOADED: " ++ v.name ++ " instance"), ?_, fun X => rfl⟩
  rw [save_dir_of_ok v m fs bytes hsave]
  exact load_success v _ bytes m (openBinary_writeFile _ _ _) hinv

theorem save_load_round_trip_witness :
    ∃ r, load toyVariant (save toyVariant 2 (some [("junk.txt", Entry.file [7])])).1
        = .ok r
      ∧ ∀ X, toyVariant.predict_proba r.1 X = toyVariant.predict_proba 2 X :=
  save_load_round_trip toyVariant 2 (some [("junk.txt", Entry.file [7])])
    [1, 1] rfl rfl

/-- The file names in the artifact directory other than the
`__init__.py` marker. -/
def nonMarkerFiles (d : Dir) : List String :=
  (d.filter (fun x => x.1 != "__init__.py")).map Prod.fst

/-- C6: the artifact is a single file at a fixed location whose name is
derived from the class, not the instance: saving any two instances of a
variant leaves exactly one non-marker file in the artifact directory, in
both cases named by the class's fixed `artifact_file_name` constant,
whose default value is `model.model`. -/
theorem artifact_fixed_per_class {St : Type} (v : Variant St) (m₁ m₂ : St)
    (fs₁ fs₂ : Option Dir) (b₁ b₂ : List Nat)
    (h₁ : v.save_artifact_file m₁ = .ok b₁)
    (h₂ : v.save_artifact_file m₂ = .ok b₂)
    (hname : v.artifact_file_name ≠ "__init__.py") :
    nonMarkerFiles (save v m₁ fs₁).1 = [v.artifact_file_name]
      ∧ nonMarkerFiles (save v m₂ fs₂).1 = [v.artifact_file_name]
      ∧ default_artifact_file_name = "model.model" := by
  rw [save_contents_of_ok v m₁ fs₁ b₁ h₁ hname,
      save_contents_of_ok v m₂ fs₂ b₂ h₂ hname]
  unfold nonMarkerFiles
  have h : (v.artifact_file_name != "__init__.py") = true := by simp [hname]
  simp [h, default_artifact_file_name]

theorem artifact_fixed_per_class_witness :
    nonMarkerFiles (save toyVariant 1 none).1 = ["model.model"]
      ∧ nonMarkerFiles (save toyVariant 4
          (some [("junk.txt", Entry.file [7])])).1 = ["model.model"]
      ∧ default_artifact_file_name = "model.model" :=
  artifact_fixed_per_class toyVariant 1 4 none
    (some [("junk.txt", Entry.file [7])]) [1] [1, 1, 1, 1] rfl rfl (by decide)

/-- Python evaluates the class body of `Model` once, at class-definition
time; line 25 `emotions: list[str] = load_emotions()` calls the loader
exactly once then and stores the result as a class attribute.
`load_emotions` itself lives outside the given sources, so the list it
returns is a parameter.  The result pairs the class attribute with the
number of loader calls made. -/
def defineModelClass (loadedLabels : List String) : List String × Nat :=
  (loadedLabels, 1)

/-- Defining a subclass of `Model` does not re-execute line 25: the
subclass inherits the class attribute unchanged and makes no loader
call. -/
def subclassEmotions (base : List String) : List String := base

/-- The `emotions` attribute an instance sees is its class's attribute;
instance construction makes no loader call. -/
def instanceEmotions (classEmotions : List String) : List String :=
  classEmotions

/-- C7: the emotion-label list is loaded exactly once, at class-definition
time, and shared: instances of any two subclasses (at any inheritance
depth below `Model`) see the identical ordered label sequence, and the
loader was called exactly once. -/
theorem emotions_shared (loadedLabels : List String) (n₁ n₂ : Nat) :
    instanceEmotions (subclassEmotions^[n₁] (defineModelClass loadedLabels).1)
      = instanceEmotions (subclassEmotions^[n₂] (defineModelClass loadedLabels).1)
    ∧ (defineModelClass loadedLabels).2 = 1 := by
  have hsub : subclassEmotions = id := rfl
  rw [hsub]
  simp [Function.iterate_id, defineModelClass, instanceEmotions]

/-- Modelled from the spec: `predict` is abstract in model.py (lines
84-92) and no concrete variant is among the given sources; the spec's
contract for `predict` says its Prediction reflects, for each label in
the shared list, whether it is asserted, based on comparing that label's
estimated probability against its threshold.  This is that asserted-label
set. -/
def assertedLabels (emotions : List String) (proba : String → ℚ)
    (th : Thresholds) : List String :=
  emotions.filter (fun l => decide (th l ≤ proba l))

/-- C8: for a fixed probability output, assertion is antitone in a
label's threshold: if the label is asserted under the raised threshold it
was already asserted under the lower one, so raising can only remove the
label, never add it. -/
theorem threshold_antitone (emotions : List String) (proba : String → ℚ)
    (th th' : Thresholds) (l : String)
    (hraise : th l ≤ th' l)
    (hmem : l ∈ assertedLabels emotions proba th') :
    l ∈ assertedLabels emotions proba th := by
  unfold assertedLabels at hmem ⊢
  rw [List.mem_filter] at hmem ⊢
  refine ⟨hmem.1, ?_⟩
  have h2 : th' l ≤ proba l := of_decide_eq_true hmem.2
  exact decide_eq_true (le_trans hraise h2)

/-- The spec's concrete scenario probabilities: 0.9 for joy, 0.2 for any
other label. -/
def scenarioProba : String → ℚ :=
  fun s => if s = "joy" then 9 / 10 else 2 / 10

theorem threshold_antitone_witness :
    "joy" ∈ assertedLabels ["joy", "anger"] scenarioProba (fun _ => 1 / 2) :=
  threshold_antitone ["joy", "anger"] scenarioProba (fun _ => 1 / 2)
    (fun _ => 7 / 10) "joy" (by norm_num)
    (by norm_num [assertedLabels, List.mem_filter, scenarioProba])

/-- A subclass declaration under the ABC machinery: for each abstract
operation of the contract, either an implementation (`some`) or the
inherited abstract stub (`none`). -/
structure VariantDecl (St : Type) where
  name : String
  artifact_file_name : String := default_artifact_file_name
  load_artifact_file : Option (List Nat → Except String St)
  save_artifact_file : Option (St → Except String (List Nat))
  thresholds_get : Option (St → Thresholds)
  thresholds_set : Option (St → Thresholds → St)
  predict : Option (St → Comment → Prediction)
  predict_proba : Option (St → List String → List (List ℚ))

/-- Whether the declaration overrides every abstract operation of the
contract. -/
def VariantDecl.fullyImplemented {St : Type} (d : VariantDecl St) : Bool :=
  d.load_artifact_file.isSome && d.save_artifact_file.isSome
    && d.thresholds_get.isSome && d.thresholds_set.isSome
    && d.predict.isSome && d.predict_proba.isSome

/-- The TypeError `abc.ABCMeta` raises when a class with remaining
abstract methods is instantiated (the spec's ContractViolationError). -/
inductive ContractViolationError where
  | unimplementedAbstractMethod
deriving DecidableEq

/-- Construction under `abc.ABCMeta`: instantiating a class that still
has abstract methods fails immediately; otherwise construction succeeds
and yields a variant whose every contract operation is a total,
implemented function (so no later operation call can hit the abstract
stub). -/
def instantiate {St : Type} (d : VariantDecl St) :
    Except ContractViolationError (Variant St) :=
  match d.load_artifact_file, d.save_artifact_file, d.thresholds_get,
      d.thresholds_set, d.predict, d.predict_proba with
  | some lf, some sf, some tg, some ts, some p, some pp =>
      .ok { name := d.name, artifact_file_name := d.artifact_file_name,
            load_artifact_file := lf, save_artifact_file := sf,
            thresholds := tg, set_thresholds := ts,
            predict := p, predict_proba := pp }
  | _, _, _, _, _, _ => .error .unimplementedAbstractMethod

/-- Whether an `Except` value is a success. -/
def isOkB {ε α : Type} : Except ε α → Bool
  | .ok _ => true
  | .error _ => false

/-- C9: a variant declaration that leaves any abstract operation of the
contract unimplemented fails at construction time with the
contract-violation error; construction succeeds exactly when every
operation is implemented, and then every operation of the constructed
variant is total, so no later operation call fails for this reason. -/
theorem abstract_unimplemented_fails_at_construction {St : Type}
    (d : VariantDecl St) (hmiss : d.fullyImplemented = false) :
    instantiate d = .error .unimplementedAbstractMethod
      ∧ isOkB (instantiate d) = d.fullyImplemented := by
  have key : isOkB (instantiate d) = d.fullyImplemented := by
    unfold instantiate VariantDecl.fullyImplemented isOkB
    rcases d with ⟨n, a, lf, sf, tg, ts, p, pp⟩
    cases lf <;> cases sf <;> cases tg <;> cases ts <;> cases p <;>
      cases pp <;> simp
  refine ⟨?_, key⟩
  rw [hmiss] at key
  cases hinst : instantiate d with
  | ok v => rw [hinst] at key; exact absurd key (by simp [isOkB])
  | error e => cases e; rfl

/-- A declaration that forgets to override `predict`. -/
def missingPredictDecl : VariantDecl Nat :=
  { name := "Incomplete"
    load_artifact_file := some toyVariant.load_artifact_file
    save_artifact_file := some toyVariant.save_artifact_file
    thresholds_get := some toyVariant.thresholds
    thresholds_set := some toyVariant.set_thresholds
    predict := none
    predict_proba := some toyVariant.predict_proba }

theorem abstract_unimplemented_witness :
    instantiate missingPredictDecl = .error .unimplementedAbstractMethod
      ∧ isOkB (instantiate missingPredictDecl)
          = missingPredictDecl.fullyImplemented :=
  abstract_unimplemented_fails_at_construction missingPredictDecl rfl

end EmoClassifier
